import Mathlib

/-
Verification of the stack-and-register virtual machine in src/virtual.py
against its specification. The Python source is shallowly embedded below:
the token grammar, the per-opcode checkers, command construction, the
machine state and the executor dispatch are translated definition by
definition. Line numbers in the doc comments refer to src/virtual.py.
Only the helper methods reachable from Executor.execute_command are
embedded for execution; the dispatch match of execute_command contains
cases for IDLE and PUSH only, so it calls no other helper.
-/

set_option maxRecDepth 8000

namespace Virtual

/-- Register.Type (lines 37-41): the closed register set. -/
inductive RegisterType
  | RESULT
  | RXX
  deriving DecidableEq

/-- Action.Type (lines 14-25): the closed opcode set. -/
inductive ActionType
  | IDLE
  | PUSH
  | POP
  | INC
  | ADD
  | SUB
  | STORE
  | LOAD
  | FREE
  | PRINT
  deriving DecidableEq

/-- Character class of the memory-address pattern body: [A-Za-z0-9_]. -/
def isAddrChar (c : Char) : Bool :=
  c.isAlphanum || c == '_'

/-- Tail of a memory-address token after the first body character: zero or
more body characters, then one closing brace at the very end. -/
def memClose : List Char → Bool
  | [] => false
  | c :: rest => if rest.isEmpty then c == '}' else isAddrChar c && memClose rest

/-- Rest of a memory-address token after the opening brace: at least one
body character, then the closing brace. -/
def memAfterBrace : List Char → Bool
  | [] => false
  | c :: rest => isAddrChar c && memClose rest

/-- MemoryAddress.is_valid (lines 8-11): full match of the token against
one opening brace, one or more characters of the class [A-Za-z0-9_], and
one closing brace. -/
def memValid (s : String) : Bool :=
  match s.data with
  | [] => false
  | c :: rest => c == '{' && memAfterBrace rest

/-- Register.potential (lines 48-50): the first two characters of the
token are the percent sign and the letter r. -/
def regPotential (s : String) : Bool :=
  match s.data with
  | c1 :: c2 :: _ => c1 == '%' && c2 == 'r'
  | _ => false

/-- Register.from_str (lines 52-57): exact lookup in the closed map of
register names; any other token raises. -/
def registerFromStr (s : String) : Except String RegisterType :=
  if s = "%res" then .ok RegisterType.RESULT
  else if s = "%rxx" then .ok RegisterType.RXX
  else .error ("Invalid register type")

/-- Whitespace stripped by the Python int constructor, modelled with the
four common ASCII whitespace characters. -/
def isPySpace (c : Char) : Bool :=
  c == ' ' || c == '\t' || c == '\n' || c == '\r'

def stripWS (cs : List Char) : List Char :=
  ((cs.dropWhile isPySpace).reverse.dropWhile isPySpace).reverse

/-- Digit run after the first digit of a Python int literal: decimal
digits, with a single underscore allowed between two digits. -/
def pyDigitsAux : Nat → List Char → Option Nat
  | acc, [] => some acc
  | acc, c :: rest =>
    if c.isDigit then pyDigitsAux (acc * 10 + (c.toNat - 48)) rest
    else if c == '_' then
      match rest with
      | [] => none
      | c2 :: rest2 =>
        if c2.isDigit then pyDigitsAux (acc * 10 + (c2.toNat - 48)) rest2
        else none
    else none

/-- One or more decimal digits, underscores allowed between digits. -/
def pyDigits : List Char → Option Nat
  | [] => none
  | c :: rest => if c.isDigit then pyDigitsAux (c.toNat - 48) rest else none

def pyIntCore : List Char → Option Int
  | '-' :: rest => (pyDigits rest).map (fun n => -(n : Int))
  | '+' :: rest => (pyDigits rest).map (fun n => (n : Int))
  | cs => (pyDigits cs).map (fun n => (n : Int))

/-- Model of the Python built-in int applied to one token: optional
surrounding whitespace, an optional sign, then one or more ASCII decimal
digits with single underscores allowed between digits; anything else
raises ValueError, modelled as none. -/
def pyInt (s : String) : Option Int :=
  pyIntCore (stripWS s.data)

/-- Runtime value of one parsed argument slot: the checkers leave a token
as a raw string, or replace it in place by a Register.Type member or an
int (lines 106-198). -/
inductive Value
  | vstr (s : String)
  | vreg (r : RegisterType)
  | vint (n : Int)
  deriving DecidableEq

/-- CommandChecker.Idle (lines 100-104). -/
def checkIdle (args : List String) : Except String (List Value) :=
  match args with
  | [] => .ok []
  | _ => .error ("IDLE command must not have arguments")

/-- CommandChecker.Push (lines 106-117): a memory address is kept as a
raw string, a register-like token must resolve, any other token must be
an int. -/
def checkPush (args : List String) : Except String (List Value) :=
  match args with
  | [a] =>
    if memValid a then .ok [Value.vstr a]
    else if regPotential a then
      match registerFromStr a with
      | .ok r => .ok [Value.vreg r]
      | .error e => .error e
    else
      match pyInt a with
      | some n => .ok [Value.vint n]
      | none => .error ("invalid literal for int with base 10")
  | _ => .error ("Invalid PUSH arguments")

/-- CommandChecker.Pop (lines 119-125): the first test rejects a single
argument that is not a memory address; the second test then rejects every
nonempty argument list, so only the zero-argument form parses. -/
def checkPop (args : List String) : Except String (List Value) :=
  match args with
  | [] => .ok []
  | [a] =>
    if memValid a then .error ("Invalid POP arguments")
    else .error ("Invalid POP argument. Must be a memory address")
  | _ => .error ("Invalid POP arguments")

/-- CommandChecker.Inc (lines 127-140). -/
def checkInc (args : List String) : Except String (List Value) :=
  match args with
  | [a] =>
    if memValid a then .ok [Value.vstr a]
    else if regPotential a then
      match registerFromStr a with
      | .ok r =>
        if r = RegisterType.RESULT then
          .error ("Invalid INC argument. Register must be mutable")
        else .ok [Value.vreg r]
      | .error e => .error e
    else
      match pyInt a with
      | some n => .ok [Value.vint n]
      | none => .error ("invalid literal for int with base 10")
  | _ => .error ("Invalid INC argument. Expected 1 argument")

/-- One argument slot of check_2_args (lines 146-152): here the register
test comes first, then the memory-address test, then int coercion. -/
def parse2Arg (a : String) : Except String Value :=
  if regPotential a then
    match registerFromStr a with
    | .ok r => .ok (Value.vreg r)
    | .error e => .error e
  else if memValid a then .ok (Value.vstr a)
  else
    match pyInt a with
    | some n => .ok (Value.vint n)
    | none => .error ("invalid literal for int with base 10")

/-- CommandChecker.check_2_args (lines 142-152). -/
def check2Args (args : List String) (errPre : String) : Except String (List Value) :=
  match args with
  | [a, b] =>
    match parse2Arg a with
    | .error e => .error e
    | .ok x =>
      match parse2Arg b with
      | .error e => .error e
      | .ok y => .ok [x, y]
  | _ => .error errPre

/-- CommandChecker.Store (lines 164-178): the one-argument form must be a
memory address; the two-argument form resolves the first token as a
register and keeps the second token as a raw string without checking it. -/
def checkStore (args : List String) : Except String (List Value) :=
  match args with
  | [] => .error ("Invalid STORE arguments. Memory address is expected")
  | [a] =>
    if memValid a then .ok [Value.vstr a]
    else .error ("Invalid STORE arguments. Must be a memory address")
  | [a, b] =>
    if regPotential a then
      match registerFromStr a with
      | .ok r => .ok [Value.vreg r, Value.vstr b]
      | .error e => .error e
    else .error ("Invalid STORE arguments. Invalid register")
  | _ => .error ("Invalid STORE arguments")

/-- CommandChecker.Load (lines 180-184). -/
def checkLoad (args : List String) : Except String (List Value) :=
  match args with
  | [a] =>
    if memValid a then .ok [Value.vstr a]
    else .error ("Invalid LOAD arguments. Must be a memory address")
  | _ => .error ("Invalid LOAD arguments. Must be a memory address")

/-- CommandChecker.Free (lines 186-190): raises when the argument list is
empty, or when a single argument is not a memory address; any list of two
or more arguments passes the test with the raw strings unchanged. -/
def checkFree (args : List String) : Except String (List Value) :=
  match args with
  | [] => .error ("Invalid LOAD arguments. Must be a memory address or empty")
  | [a] =>
    if memValid a then .ok [Value.vstr a]
    else .error ("Invalid LOAD arguments. Must be a memory address or empty")
  | _ => .ok (args.map Value.vstr)

/-- CommandChecker.Print (lines 192-198): a register-like token must
resolve; every other single token is kept verbatim with no validation. -/
def checkPrint (args : List String) : Except String (List Value) :=
  match args with
  | [a] =>
    if regPotential a then
      match registerFromStr a with
      | .ok r => .ok [Value.vreg r]
      | .error e => .error e
    else .ok [Value.vstr a]
  | _ => .error ("Invalid PRINT arguments. Must be 1")

/-- CommandChecker.check_and_parse (lines 75-98): dispatch to the
per-opcode checker. -/
def checkAndParse : ActionType → List String → Except String (List Value)
  | ActionType.IDLE, args => checkIdle args
  | ActionType.PUSH, args => checkPush args
  | ActionType.POP, args => checkPop args
  | ActionType.INC, args => checkInc args
  | ActionType.ADD, args => check2Args args ("Invalid ADD arguments. Must be 2: ")
  | ActionType.SUB, args => check2Args args ("Invalid SUB arguments. Must be 2: ")
  | ActionType.STORE, args => checkStore args
  | ActionType.LOAD, args => checkLoad args
  | ActionType.FREE, args => checkFree args
  | ActionType.PRINT, args => checkPrint args

/-- Action.from_str (lines 29-34): exact, case-sensitive membership in the
opcode set. -/
def actionFromStr (s : String) : Option ActionType :=
  if s = "IDLE" then some ActionType.IDLE
  else if s = "PUSH" then some ActionType.PUSH
  else if s = "POP" then some ActionType.POP
  else if s = "INC" then some ActionType.INC
  else if s = "ADD" then some ActionType.ADD
  else if s = "SUB" then some ActionType.SUB
  else if s = "STORE" then some ActionType.STORE
  else if s = "LOAD" then some ActionType.LOAD
  else if s = "FREE" then some ActionType.FREE
  else if s = "PRINT" then some ActionType.PRINT
  else none

/-- Model of the Python str.split with separator one space character
(line 63): empty pieces are kept and the empty string yields one empty
piece. -/
def splitChars : List Char → List (List Char)
  | [] => [[]]
  | c :: rest =>
    if c == ' ' then [] :: splitChars rest
    else
      match splitChars rest with
      | [] => [[c]]
      | t :: ts => (c :: t) :: ts

def splitOnSpace (s : String) : List String :=
  (splitChars s.data).map (fun cs => String.mk cs)

/-- Command (lines 60-69): a validated action together with the argument
list after in-place coercion by the checker. -/
structure Command where
  action : ActionType
  args : List Value
  deriving DecidableEq

/-- Command construction after splitting the line (lines 61-69): any
failure in the opcode lookup or in the argument checker is replaced by
one ValueError whose message carries the raw line. -/
def parseParts (line : String) : List String → Except String Command
  | [] => .error ("Invalid command: '" ++ line ++ "'")
  | op :: rest =>
    match actionFromStr op with
    | none => .error ("Invalid command: '" ++ line ++ "'")
    | some a =>
      match checkAndParse a rest with
      | .error _ => .error ("Invalid command: '" ++ line ++ "'")
      | .ok vs => .ok { action := a, args := vs }

def parseCommand (line : String) : Except String Command :=
  parseParts line (splitOnSpace line)

/-- MachineState (lines 222-226): both registers always present, memory
as a finite map from address strings, and the stack. Cells hold dynamic
values because the helper methods can store strings into them. -/
structure MachineState where
  result : Value
  rxx : Value
  memory : List (String × Value)
  stack : List Value
  deriving DecidableEq

/-- The machine at start (lines 223-226): both registers hold 0, memory
and stack are empty. -/
def initialState : MachineState :=
  { result := Value.vint 0, rxx := Value.vint 0, memory := [], stack := [] }

/-- MachineState.get_register_value (lines 233-234). -/
def get_register_value (st : MachineState) : RegisterType → Value
  | RegisterType.RESULT => st.result
  | RegisterType.RXX => st.rxx

/-- Runtime errors raised by MachineState and Executor operations. -/
inductive VMError
  | memoryFault (addr : String)
  | stackUnderflow
  | immutableRegister (r : RegisterType)
  | indexError
  deriving DecidableEq

/-- MachineState.set_register (lines 228-231): every write to the RESULT
register raises TypeError, with no exception for the implicit executor
paths. -/
def set_register (st : MachineState) (r : RegisterType) (v : Value) :
    Except VMError MachineState :=
  match r with
  | RegisterType.RESULT => .error (VMError.immutableRegister RegisterType.RESULT)
  | RegisterType.RXX => .ok { st with rxx := v }

/-- Lookup in the memory dictionary. -/
def memLookup : List (String × Value) → String → Option Value
  | [], _ => none
  | (k, v) :: rest, a => if k = a then some v else memLookup rest a

/-- MachineState.resolve_int (lines 245-251): a register reference reads
the register, a string is treated as a memory address and read from
memory (KeyError when absent), any other value is returned as is. -/
def resolve_int (st : MachineState) : Value → Except VMError Value
  | Value.vreg r => .ok (get_register_value st r)
  | Value.vstr s =>
    match memLookup st.memory s with
    | some v => .ok v
    | none => .error (VMError.memoryFault s)
  | Value.vint n => .ok (Value.vint n)

/-- Executor._push (lines 273-274). The Python deque appends and pops at
the same end, so the stack top is modelled as the head of the list. -/
def pushOp (st : MachineState) (args : List Value) : Except VMError MachineState :=
  match args with
  | [] => .error VMError.indexError
  | a :: _ =>
    match resolve_int st a with
    | .ok v => .ok { st with stack := v :: st.stack }
    | .error e => .error e

/-- Executor.execute_command (lines 266-271): the dispatch match contains
a case for IDLE (pass) and a case for PUSH only; every other action falls
through the match and the method returns with no effect, no output and no
error. The second component of the result collects printed values. -/
def execute_command (st : MachineState) (c : Command) :
    Except VMError (MachineState × List Value) :=
  match c.action with
  | ActionType.IDLE => .ok (st, [])
  | ActionType.PUSH =>
    match pushOp st c.args with
    | .ok st2 => .ok (st2, [])
    | .error e => .error e
  | _ => .ok (st, [])

/-- Either kind of failure of one line of the run loop. -/
inductive RunError
  | parseError (msg : String)
  | vmError (e : VMError)
  deriving DecidableEq

/-- One line of VirtualMachine.run (lines 333-338): parse the line, then
execute the command; a parse failure aborts before the Executor is
reached. -/
def runLine (st : MachineState) (line : String) :
    Except RunError (MachineState × List Value) :=
  match parseCommand line with
  | .error e => .error (RunError.parseError e)
  | .ok c =>
    match execute_command st c with
    | .error e => .error (RunError.vmError e)
    | .ok res => .ok res

/-- One or more characters, all ASCII decimal digits. -/
def isDigitList (cs : List Char) : Bool :=
  !cs.isEmpty && cs.all Char.isDigit

/-- Token shape of a base-10 signed integer literal from the spec
grammar: an optional minus sign, then one or more decimal digits. -/
def isIntLiteral (s : String) : Bool :=
  match s.data with
  | [] => false
  | c :: rest => if c == '-' then isDigitList rest else isDigitList (c :: rest)

/-- Appending strings appends their character data. -/
theorem data_append (a b : String) : (a ++ b).data = a.data ++ b.data := rfl

/-- A list without a space character is one piece of the split. -/
theorem splitChars_no_space (cs : List Char) (h : ' ' ∉ cs) : splitChars cs = [cs] := by
  induction cs with
  | nil => rfl
  | cons c rest ih =>
    have hc : (c == ' ') = false :=
      beq_eq_false_iff_ne.mpr (fun he => h (he ▸ List.mem_cons_self c rest))
    have hr : ' ' ∉ rest := fun hm => h (List.mem_cons_of_mem c hm)
    simp [splitChars, hc, ih hr]

/-- Splitting at the first space after a space-free chunk. -/
theorem splitChars_append (xs cs : List Char) (h : ' ' ∉ xs) :
    splitChars (xs ++ ' ' :: cs) = xs :: splitChars cs := by
  induction xs with
  | nil => simp [splitChars]
  | cons x xs ih =>
    have hx : (x == ' ') = false :=
      beq_eq_false_iff_ne.mpr (fun he => h (he ▸ List.mem_cons_self x xs))
    have hxs : ' ' ∉ xs := fun hm => h (List.mem_cons_of_mem x hm)
    simp [splitChars, hx, ih hxs]

/-- A token without spaces splits into itself. -/
theorem splitOnSpace_no_space (t : String) (h : ' ' ∉ t.data) : splitOnSpace t = [t] := by
  unfold splitOnSpace
  rw [splitChars_no_space t.data h]
  rfl

/-- Splitting a line made of a space-free word, a space, and a rest. -/
theorem splitOnSpace_sep (w t : String) (hw : ' ' ∉ w.data) :
    splitOnSpace (w ++ " " ++ t) = w :: splitOnSpace t := by
  unfold splitOnSpace
  have hd : (w ++ " " ++ t).data = w.data ++ ' ' :: t.data := by
    rw [data_append, data_append, List.append_assoc]
    rfl
  rw [hd, splitChars_append w.data t.data hw]
  rfl

/-- Unfolding of parseParts on a recognized opcode and passing checker. -/
theorem parseParts_ok (line op : String) (rest : List String) (a : ActionType)
    (vs : List Value) (ha : actionFromStr op = some a)
    (hc : checkAndParse a rest = .ok vs) :
    parseParts line (op :: rest) = .ok { action := a, args := vs } := by
  simp only [parseParts, ha, hc]

/-- Unfolding of parseParts on a recognized opcode and failing checker. -/
theorem parseParts_err (line op : String) (rest : List String) (a : ActionType)
    (e : String) (ha : actionFromStr op = some a)
    (hc : checkAndParse a rest = .error e) :
    parseParts line (op :: rest) = .error ("Invalid command: '" ++ line ++ "'") := by
  simp only [parseParts, ha, hc]

/-- A digit differs from any non-digit character. -/
theorem digit_beq_ne (c d : Char) (hc : c.isDigit = true) (hd : d.isDigit = false) :
    (c == d) = false := by
  refine beq_eq_false_iff_ne.mpr ?_
  intro he
  rw [he, hd] at hc
  exact Bool.false_ne_true hc

/-- A list of digits contains no space. -/
theorem no_space_of_digits (cs : List Char) (h : cs.all Char.isDigit = true) :
    ' ' ∉ cs := by
  intro hm
  have hsp := List.all_eq_true.mp h ' ' hm
  exact absurd hsp (by decide)

/-- An integer-literal token contains no space, is not memory-address
shaped and is not register-like. -/
theorem intLiteral_shape (t : String) (h : isIntLiteral t = true) :
    ' ' ∉ t.data ∧ memValid t = false ∧ regPotential t = false := by
  rcases hd : t.data with _ | ⟨c, rest⟩
  · unfold isIntLiteral at h
    rw [hd] at h
    exact absurd h (by decide)
  · have h2 : (if (c == '-') = true then isDigitList rest
        else isDigitList (c :: rest)) = true := by
      unfold isIntLiteral at h
      rw [hd] at h
      exact h
    by_cases hb : (c == '-') = true
    · have hcm : c = '-' := beq_iff_eq.mp hb
      subst hcm
      rw [if_pos hb] at h2
      simp only [isDigitList, Bool.and_eq_true, Bool.not_eq_true'] at h2
      obtain ⟨-, hdig⟩ := h2
      refine ⟨?_, ?_, ?_⟩
      · intro hm
        rcases List.mem_cons.mp hm with he | hm2
        · exact absurd he (by decide)
        · exact no_space_of_digits rest hdig hm2
      · simp [memValid, hd, show (('-' : Char) == '{') = false from rfl]
      · simp only [regPotential, hd]
        rcases rest with _ | ⟨c2, rest2⟩
        · rfl
        · simp [show (('-' : Char) == '%') = false from rfl]
    · rw [if_neg hb] at h2
      simp only [isDigitList, Bool.and_eq_true, Bool.not_eq_true'] at h2
      obtain ⟨-, hdig⟩ := h2
      have hcd : c.isDigit = true := List.all_eq_true.mp hdig c (List.mem_cons_self c rest)
      have hrd : rest.all Char.isDigit = true := by
        refine List.all_eq_true.mpr ?_
        intro x hx
        exact List.all_eq_true.mp hdig x (List.mem_cons_of_mem c hx)
      refine ⟨?_, ?_, ?_⟩
      · intro hm
        rcases List.mem_cons.mp hm with he | hm2
        · rw [← he] at hcd
          exact absurd hcd (by decide)
        · exact no_space_of_digits rest hrd hm2
      · simp [memValid, hd, digit_beq_ne c '{' hcd (by decide)]
      · simp only [regPotential, hd]
        rcases rest with _ | ⟨c2, rest2⟩
        · rfl
        · simp [digit_beq_ne c '%' hcd (by decide)]

/-- Claim C1: the spec says executing a parsed ADD overwrites the RESULT
register with the sum of the operands and SUB with the difference, so
ADD 2 3 leaves RESULT 5 and SUB 2 3 leaves RESULT -1. The code disagrees:
both lines parse, but execute_command has no ADD or SUB case, so both
commands leave every machine state untouched; moreover set_register
rejects every write to RESULT, so even the undispatched handlers could
never assign it. -/
theorem C1_add_sub_never_write_result :
    parseCommand "ADD 2 3" =
      Except.ok { action := ActionType.ADD, args := [Value.vint 2, Value.vint 3] } ∧
    parseCommand "SUB 2 3" =
      Except.ok { action := ActionType.SUB, args := [Value.vint 2, Value.vint 3] } ∧
    (∀ st : MachineState,
      execute_command st { action := ActionType.ADD, args := [Value.vint 2, Value.vint 3] } =
        Except.ok (st, [])) ∧
    (∀ st : MachineState,
      execute_command st { action := ActionType.SUB, args := [Value.vint 2, Value.vint 3] } =
        Except.ok (st, [])) ∧
    (∀ (st : MachineState) (v : Value),
      set_register st RegisterType.RESULT v =
        Except.error (VMError.immutableRegister RegisterType.RESULT)) :=
  ⟨rfl, rfl, fun _ => rfl, fun _ => rfl, fun _ _ => rfl⟩

/-- Claim C2: every successfully parsed command whose opcode is neither
IDLE nor PUSH is executed by execute_command as a silent no-op: the state
is returned unchanged, nothing is printed and no error is raised. -/
theorem C2_unhandled_actions_are_noops (line : String) (c : Command) (st : MachineState)
    (hp : parseCommand line = Except.ok c)
    (h1 : c.action ≠ ActionType.IDLE) (h2 : c.action ≠ ActionType.PUSH) :
    execute_command st c = Except.ok (st, []) := by
  obtain ⟨a, args⟩ := c
  cases a
  case IDLE => exact absurd rfl h1
  case PUSH => exact absurd rfl h2
  all_goals rfl

/-- Witness for C2 at the parsed command of the line POP. -/
theorem C2_unhandled_actions_are_noops_witness :
    execute_command initialState { action := ActionType.POP, args := [] } =
      Except.ok (initialState, []) :=
  C2_unhandled_actions_are_noops "POP" { action := ActionType.POP, args := [] }
    initialState rfl (by decide) (by decide)

/-- Claim C3: the spec says POP followed by a memory-address token parses
successfully. The code disagrees: the Pop checker rejects every nonempty
argument list, so the line never parses (and consequently PUSH 5 then
POP with an address can never store 5). -/
theorem C3_pop_with_address_fails_to_parse (t : String)
    (ht : ' ' ∉ t.data) (hm : memValid t = true) :
    parseCommand ("POP " ++ t) = Except.error ("Invalid command: 'POP " ++ t ++ "'") := by
  have hs : splitOnSpace ("POP " ++ t) = ["POP", t] := by
    have h1 := splitOnSpace_sep "POP" t (by decide)
    rw [splitOnSpace_no_space t ht] at h1
    exact h1
  unfold parseCommand
  rw [hs]
  have hc : checkAndParse ActionType.POP [t] = Except.error ("Invalid POP arguments") := by
    simp [checkAndParse, checkPop, hm]
  exact parseParts_err ("POP " ++ t) "POP" [t] ActionType.POP ("Invalid POP arguments") rfl hc

/-- Witness for C3 at the memory-address token of the spec example. -/
theorem C3_pop_with_address_fails_to_parse_witness :
    parseCommand "POP {x}" = Except.error ("Invalid command: 'POP {x}'") :=
  C3_pop_with_address_fails_to_parse "{x}" (by decide) (by decide)

/-- Claim C4: the spec says STORE writes the value of RESULT (one-argument
form) or of the named register (two-argument form) into the given memory
cell. The code disagrees: both forms parse, but execute_command has no
STORE case, so memory is never written and the state is unchanged. -/
theorem C4_store_is_never_executed :
    parseCommand "STORE {a}" =
      Except.ok { action := ActionType.STORE, args := [Value.vstr "{a}"] } ∧
    parseCommand "STORE %rxx {a}" =
      Except.ok { action := ActionType.STORE,
                  args := [Value.vreg RegisterType.RXX, Value.vstr "{a}"] } ∧
    (∀ st : MachineState,
      execute_command st { action := ActionType.STORE, args := [Value.vstr "{a}"] } =
        Except.ok (st, [])) ∧
    (∀ st : MachineState,
      execute_command st { action := ActionType.STORE,
                           args := [Value.vreg RegisterType.RXX, Value.vstr "{a}"] } =
        Except.ok (st, [])) :=
  ⟨rfl, rfl, fun _ => rfl, fun _ => rfl⟩

/-- Claim C5: for every token of shape minus-sign-then-digits or digits,
PUSH of that token parses to a PUSH command carrying the denoted integer,
and executing it on any machine state pushes that integer onto the stack
and leaves the registers and the memory unchanged. -/
theorem C5_push_literal (t : String) (n : Int) (st : MachineState)
    (hlit : isIntLiteral t = true) (hn : pyInt t = some n) :
    parseCommand ("PUSH " ++ t) =
      Except.ok { action := ActionType.PUSH, args := [Value.vint n] } ∧
    execute_command st { action := ActionType.PUSH, args := [Value.vint n] } =
      Except.ok ({ st with stack := Value.vint n :: st.stack }, []) := by
  obtain ⟨hsp, hmem, hreg⟩ := intLiteral_shape t hlit
  constructor
  · have hs : splitOnSpace ("PUSH " ++ t) = ["PUSH", t] := by
      have h1 := splitOnSpace_sep "PUSH" t (by decide)
      rw [splitOnSpace_no_space t hsp] at h1
      exact h1
    unfold parseCommand
    rw [hs]
    have hc : checkAndParse ActionType.PUSH [t] = Except.ok [Value.vint n] := by
      simp [checkAndParse, checkPush, hmem, hreg, hn]
    exact parseParts_ok ("PUSH " ++ t) "PUSH" [t] ActionType.PUSH [Value.vint n] rfl hc
  · rfl

/-- Witness for C5 at the token 5 of the spec example. -/
theorem C5_push_literal_witness :
    parseCommand "PUSH 5" =
      Except.ok { action := ActionType.PUSH, args := [Value.vint 5] } ∧
    execute_command initialState { action := ActionType.PUSH, args := [Value.vint 5] } =
      Except.ok ({ initialState with stack := [Value.vint 5] }, []) :=
  C5_push_literal "5" 5 initialState rfl rfl

/-- Claim C6: the spec says POP on an empty stack raises StackUnderflow
and LOAD or FREE on an absent memory address raises MemoryFault. The code
disagrees: all three lines parse, but execute_command has no POP, LOAD or
FREE case, so on the fresh machine (empty stack, empty memory) each of
them returns successfully with the state unchanged and no error. -/
theorem C6_runtime_faults_never_raised :
    parseCommand "POP" = Except.ok { action := ActionType.POP, args := [] } ∧
    execute_command initialState { action := ActionType.POP, args := [] } =
      Except.ok (initialState, []) ∧
    parseCommand "LOAD {missing}" =
      Except.ok { action := ActionType.LOAD, args := [Value.vstr "{missing}"] } ∧
    execute_command initialState
        { action := ActionType.LOAD, args := [Value.vstr "{missing}"] } =
      Except.ok (initialState, []) ∧
    parseCommand "FREE {missing}" =
      Except.ok { action := ActionType.FREE, args := [Value.vstr "{missing}"] } ∧
    execute_command initialState
        { action := ActionType.FREE, args := [Value.vstr "{missing}"] } =
      Except.ok (initialState, []) :=
  ⟨rfl, rfl, rfl, rfl, rfl, rfl⟩

/-- Claim C7: the spec says FREE with zero arguments is accepted by the
parser. The code disagrees: the Free checker raises on an empty argument
list, so the bare line FREE fails to parse; the one-argument form does
parse exactly when the token is a valid memory address, as claimed. -/
theorem C7_free_zero_args_rejected :
    parseCommand "FREE" = Except.error ("Invalid command: 'FREE'") ∧
    (∀ t : String, ' ' ∉ t.data → memValid t = true →
      parseCommand ("FREE " ++ t) =
        Except.ok { action := ActionType.FREE, args := [Value.vstr t] }) ∧
    (∀ t : String, ' ' ∉ t.data → memValid t = false →
      parseCommand ("FREE " ++ t) =
        Except.error ("Invalid command: 'FREE " ++ t ++ "'")) := by
  refine ⟨rfl, ?_, ?_⟩
  · intro t ht hm
    have hs : splitOnSpace ("FREE " ++ t) = ["FREE", t] := by
      have h1 := splitOnSpace_sep "FREE" t (by decide)
      rw [splitOnSpace_no_space t ht] at h1
      exact h1
    unfold parseCommand
    rw [hs]
    have hc : checkAndParse ActionType.FREE [t] = Except.ok [Value.vstr t] := by
      simp [checkAndParse, checkFree, hm]
    exact parseParts_ok ("FREE " ++ t) "FREE" [t] ActionType.FREE [Value.vstr t] rfl hc
  · intro t ht hm
    have hs : splitOnSpace ("FREE " ++ t) = ["FREE", t] := by
      have h1 := splitOnSpace_sep "FREE" t (by decide)
      rw [splitOnSpace_no_space t ht] at h1
      exact h1
    unfold parseCommand
    rw [hs]
    have hc : checkAndParse ActionType.FREE [t] =
        Except.error ("Invalid LOAD arguments. Must be a memory address or empty") := by
      simp [checkAndParse, checkFree, hm]
    exact parseParts_err ("FREE " ++ t) "FREE" [t] ActionType.FREE
      ("Invalid LOAD arguments. Must be a memory address or empty") rfl hc

/-- Witness for C7 at one valid and one invalid memory-address token. -/
theorem C7_free_zero_args_rejected_witness :
    parseCommand "FREE {a}" =
      Except.ok { action := ActionType.FREE, args := [Value.vstr "{a}"] } ∧
    parseCommand "FREE 5" = Except.error ("Invalid command: 'FREE 5'") :=
  ⟨C7_free_zero_args_rejected.2.1 "{a}" (by decide) (by decide),
   C7_free_zero_args_rejected.2.2 "5" (by decide) (by decide)⟩

/-- Counterexample to claim C8 as stated: the claim says a PRINT argument
that is neither memory-address shaped nor register-like must parse as an
integer and that PRINT foo is a parse failure; in the code the line
parses successfully, the token kept verbatim. -/
theorem C8_print_foo_parses :
    parseCommand "PRINT foo" =
      Except.ok { action := ActionType.PRINT, args := [Value.vstr "foo"] } := rfl

/-- Claim C8 as amended: for PUSH, INC, ADD and SUB an argument token that
is not memory-address shaped, not register-like and not a valid integer
fails the whole line, while PRINT performs no integer validation and
keeps such a token verbatim. -/
theorem C8_literal_validation (t : String)
    (ht : ' ' ∉ t.data) (hm : memValid t = false) (hr : regPotential t = false)
    (hi : pyInt t = none) :
    parseCommand ("PUSH " ++ t) = Except.error ("Invalid command: 'PUSH " ++ t ++ "'") ∧
    parseCommand ("INC " ++ t) = Except.error ("Invalid command: 'INC " ++ t ++ "'") ∧
    parseCommand ("ADD 1 " ++ t) = Except.error ("Invalid command: 'ADD 1 " ++ t ++ "'") ∧
    parseCommand ("SUB 1 " ++ t) = Except.error ("Invalid command: 'SUB 1 " ++ t ++ "'") ∧
    parseCommand ("PRINT " ++ t) =
      Except.ok { action := ActionType.PRINT, args := [Value.vstr t] } := by
  have hone : parse2Arg "1" = Except.ok (Value.vint 1) := rfl
  have hbad : parse2Arg t = Except.error ("invalid literal for int with base 10") := by
    simp [parse2Arg, hm, hr, hi]
  refine ⟨?_, ?_, ?_, ?_, ?_⟩
  · have hs : splitOnSpace ("PUSH " ++ t) = ["PUSH", t] := by
      have h1 := splitOnSpace_sep "PUSH" t (by decide)
      rw [splitOnSpace_no_space t ht] at h1
      exact h1
    unfold parseCommand
    rw [hs]
    have hc : checkAndParse ActionType.PUSH [t] =
        Except.error ("invalid literal for int with base 10") := by
      simp [checkAndParse, checkPush, hm, hr, hi]
    exact parseParts_err ("PUSH " ++ t) "PUSH" [t] ActionType.PUSH
      ("invalid literal for int with base 10") rfl hc
  · have hs : splitOnSpace ("INC " ++ t) = ["INC", t] := by
      have h1 := splitOnSpace_sep "INC" t (by decide)
      rw [splitOnSpace_no_space t ht] at h1
      exact h1
    unfold parseCommand
    rw [hs]
    have hc : checkAndParse ActionType.INC [t] =
        Except.error ("invalid literal for int with base 10") := by
      simp [checkAndParse, checkInc, hm, hr, hi]
    exact parseParts_err ("INC " ++ t) "INC" [t] ActionType.INC
      ("invalid literal for int with base 10") rfl hc
  · have hs : splitOnSpace ("ADD 1 " ++ t) = ["ADD", "1", t] := by
      have h1 := splitOnSpace_sep "ADD" ("1" ++ " " ++ t) (by decide)
      have h2 := splitOnSpace_sep "1" t (by decide)
      rw [splitOnSpace_no_space t ht] at h2
      rw [h2] at h1
      exact h1
    unfold parseCommand
    rw [hs]
    have hc : checkAndParse ActionType.ADD ["1", t] =
        Except.error ("invalid literal for int with base 10") := by
      simp [checkAndParse, check2Args, hone, hbad]
    exact parseParts_err ("ADD 1 " ++ t) "ADD" ["1", t] ActionType.ADD
      ("invalid literal for int with base 10") rfl hc
  · have hs : splitOnSpace ("SUB 1 " ++ t) = ["SUB", "1", t] := by
      have h1 := splitOnSpace_sep "SUB" ("1" ++ " " ++ t) (by decide)
      have h2 := splitOnSpace_sep "1" t (by decide)
      rw [splitOnSpace_no_space t ht] at h2
      rw [h2] at h1
      exact h1
    unfold parseCommand
    rw [hs]
    have hc : checkAndParse ActionType.SUB ["1", t] =
        Except.error ("invalid literal for int with base 10") := by
      simp [checkAndParse, check2Args, hone, hbad]
    exact parseParts_err ("SUB 1 " ++ t) "SUB" ["1", t] ActionType.SUB
      ("invalid literal for int with base 10") rfl hc
  · have hs : splitOnSpace ("PRINT " ++ t) = ["PRINT", t] := by
      have h1 := splitOnSpace_sep "PRINT" t (by decide)
      rw [splitOnSpace_no_space t ht] at h1
      exact h1
    unfold parseCommand
    rw [hs]
    have hc : checkAndParse ActionType.PRINT [t] = Except.ok [Value.vstr t] := by
      simp [checkAndParse, checkPrint, hr]
    exact parseParts_ok ("PRINT " ++ t) "PRINT" [t] ActionType.PRINT [Value.vstr t] rfl hc

/-- Witness for the amended C8 at the token foo of the spec example. -/
theorem C8_literal_validation_witness :
    parseCommand "PUSH foo" = Except.error ("Invalid command: 'PUSH foo'") ∧
    parseCommand "INC foo" = Except.error ("Invalid command: 'INC foo'") ∧
    parseCommand "ADD 1 foo" = Except.error ("Invalid command: 'ADD 1 foo'") ∧
    parseCommand "SUB 1 foo" = Except.error ("Invalid command: 'SUB 1 foo'") ∧
    parseCommand "PRINT foo" =
      Except.ok { action := ActionType.PRINT, args := [Value.vstr "foo"] } :=
  C8_literal_validation "foo" (by decide) (by decide) (by decide) (by decide)

/-- Claim C9: a line whose first token is not one of the ten opcodes fails
to parse with an error carrying the raw line, and the run loop therefore
fails on that line before any command reaches the Executor. -/
theorem C9_unknown_opcode (line : String) (st : MachineState)
    (h : actionFromStr ((splitOnSpace line).headD "") = none) :
    parseCommand line = Except.error ("Invalid command: '" ++ line ++ "'") ∧
    runLine st line =
      Except.error (RunError.parseError ("Invalid command: '" ++ line ++ "'")) := by
  have hp : parseCommand line = Except.error ("Invalid command: '" ++ line ++ "'") := by
    unfold parseCommand
    rcases hs : splitOnSpace line with _ | ⟨op, rest⟩
    · rfl
    · rw [hs, List.headD_cons] at h
      simp only [parseParts, h]
  refine ⟨hp, ?_⟩
  unfold runLine
  rw [hp]

/-- Witness for C9 at the malformed line of the spec example. -/
theorem C9_unknown_opcode_witness :
    parseCommand "FOO 1 2" = Except.error ("Invalid command: 'FOO 1 2'") ∧
    runLine initialState "FOO 1 2" =
      Except.error (RunError.parseError ("Invalid command: 'FOO 1 2'")) :=
  C9_unknown_opcode "FOO 1 2" initialState rfl

/-- Claim C10: the spec says every line containing a register-like token
other than the two valid forms fails to parse. The code disagrees: the
Free checker accepts any argument list of two or more tokens without
inspecting them, and the Store checker never inspects its second
argument, so such lines parse with the token kept as a raw string (later
treated as a memory address); register resolution itself does reject the
token wherever it is actually attempted. -/
theorem C10_register_like_token_leaks_through :
    parseCommand "FREE %rax {x}" =
      Except.ok { action := ActionType.FREE,
                  args := [Value.vstr "%rax", Value.vstr "{x}"] } ∧
    parseCommand "STORE %rxx %rax" =
      Except.ok { action := ActionType.STORE,
                  args := [Value.vreg RegisterType.RXX, Value.vstr "%rax"] } ∧
    registerFromStr "%rax" = Except.error ("Invalid register type") ∧
    parseCommand "PUSH %rax" = Except.error ("Invalid command: 'PUSH %rax'") ∧
    parseCommand "ADD %rax 1" = Except.error ("Invalid command: 'ADD %rax 1'") :=
  ⟨rfl, rfl, rfl, rfl, rfl⟩

end Virtual
